import Mathlib

/-!
Shallow embedding of the Projefa persistence-routing layer.

The embedding translates:
* the entity records (`src/src/app/core/models/*.model.ts`),
* the document backend `StorageService` (Ionic Storage; lists of whole records),
* the relational backend `DatabaseService` (SQLite; tables modelled as lists of
  rows, `completed` stored as the INTEGER 0/1 it has in the schema),
* the router `DataSyncService` (platform flag plus one-shot try/catch fallback),
* the feature-layer `TaskService.createTask`.

Timestamps are ISO-8601 strings compared lexicographically, exactly as the
TypeScript compares them with `<` on strings.  Fallible SQLite calls are
`Except Unit`; `ensureInitialized` models the two guard throws at the top of
every `DatabaseService` method.
-/

namespace Projefa

/-- Category record (category.model.ts). -/
structure Category where
  id : String
  name : String
  color : String
  icon : String
  createdAt : String
  updatedAt : String
  deriving DecidableEq

/-- Project record (project.model.ts). -/
structure Project where
  id : String
  name : String
  categoryId : String
  createdAt : String
  updatedAt : String
  deriving DecidableEq

/-- Task record (task.model.ts).  `image` is optional; `order` is the integer
display order. -/
structure Task where
  id : String
  projectId : String
  title : String
  description : String
  dueDate : String
  image : Option String
  completed : Bool
  order : Int
  createdAt : String
  updatedAt : String
  deriving DecidableEq

/-- Partial<Category>: each field either absent (`none`) or supplied. -/
structure CategoryUpdate where
  id? : Option String := none
  name? : Option String := none
  color? : Option String := none
  icon? : Option String := none
  createdAt? : Option String := none
  updatedAt? : Option String := none
  deriving DecidableEq

/-- Partial<Project>. -/
structure ProjectUpdate where
  id? : Option String := none
  name? : Option String := none
  categoryId? : Option String := none
  createdAt? : Option String := none
  updatedAt? : Option String := none
  deriving DecidableEq

/-- Partial<Task>.  `image?` is doubly optional: `some none` is an explicit
null, `some (some s)` a supplied string, `none` an absent key. -/
structure TaskUpdate where
  id? : Option String := none
  projectId? : Option String := none
  title? : Option String := none
  description? : Option String := none
  dueDate? : Option String := none
  image? : Option (Option String) := none
  completed? : Option Bool := none
  order? : Option Int := none
  createdAt? : Option String := none
  updatedAt? : Option String := none
  deriving DecidableEq

/-- Ionic Storage state: the three flat lists StorageService keeps under its
`categories` / `projects` / `tasks` keys. -/
structure DocState where
  categories : List Category
  projects : List Project
  tasks : List Task
  deriving DecidableEq

/-- Row of the SQLite `tasks` table: `completed` is the INTEGER of the schema
(`completed INTEGER NOT NULL DEFAULT 0`), `image` a nullable TEXT column. -/
structure TaskRow where
  id : String
  projectId : String
  title : String
  description : String
  dueDate : String
  image : Option String
  completed : Int
  order : Int
  createdAt : String
  updatedAt : String
  deriving DecidableEq

/-- SQLite backend state: the two init flags `ensureInitialized` consults plus
the three tables.  `categories` and `projects` have all-TEXT columns, so the
record types double as row types. -/
structure SqlDb where
  isInitialized : Bool
  isNativePlatform : Bool
  categories : List Category
  projects : List Project
  tasks : List TaskRow
  deriving DecidableEq

/-- JS `x || null` on an optional string: `undefined` and the (falsy) empty
string both become null. -/
def jsOrNull : Option String → Option String
  | none => none
  | some s => if s = "" then none else some s

/-- Marshalling of a Task into an INSERT row (DatabaseService.createTask):
`task.image || null` and `task.completed ? 1 : 0`. -/
def taskToRow (t : Task) : TaskRow :=
  { id := t.id
    projectId := t.projectId
    title := t.title
    description := t.description
    dueDate := t.dueDate
    image := jsOrNull t.image
    completed := if t.completed then 1 else 0
    order := t.order
    createdAt := t.createdAt
    updatedAt := t.updatedAt }

/-- Marshalling of a SELECTed row back into a Task:
`{ ...task, completed: task.completed === 1 }`. -/
def rowToTask (r : TaskRow) : Task :=
  { id := r.id
    projectId := r.projectId
    title := r.title
    description := r.description
    dueDate := r.dueDate
    image := r.image
    completed := r.completed == 1
    order := r.order
    createdAt := r.createdAt
    updatedAt := r.updatedAt }

/-- JS `list.findIndex` followed by an in-place assignment of `f` at the found
index: rewrite the first element satisfying `p`, leave everything else. -/
def updateFirst (p : α → Bool) (f : α → α) : List α → List α
  | [] => []
  | x :: xs => if p x then f x :: xs else x :: updateFirst p f xs

/-- Comparison by an ascending key, used to model `ORDER BY key ASC`. -/
def byKey {α β : Type} [LinearOrder β] (f : α → β) (a b : α) : Prop :=
  f a ≤ f b

instance {α β : Type} [LinearOrder β] (f : α → β) : DecidableRel (byKey f) :=
  fun a b => inferInstanceAs (Decidable (f a ≤ f b))

instance {α β : Type} [LinearOrder β] (f : α → β) : IsTotal α (byKey f) :=
  ⟨fun a b => le_total (f a) (f b)⟩

instance {α β : Type} [LinearOrder β] (f : α → β) : IsTrans α (byKey f) :=
  ⟨fun _ _ _ h1 h2 => le_trans h1 h2⟩

/-- Comparison by a descending key, used to model `ORDER BY key DESC`. -/
def byKeyDesc {α β : Type} [LinearOrder β] (f : α → β) (a b : α) : Prop :=
  f b ≤ f a

instance {α β : Type} [LinearOrder β] (f : α → β) : DecidableRel (byKeyDesc f) :=
  fun a b => inferInstanceAs (Decidable (f b ≤ f a))

instance {α β : Type} [LinearOrder β] (f : α → β) : IsTotal α (byKeyDesc f) :=
  ⟨fun a b => (le_total (f b) (f a)).imp id id⟩

instance {α β : Type} [LinearOrder β] (f : α → β) : IsTrans α (byKeyDesc f) :=
  ⟨fun _ _ _ h1 h2 => le_trans h2 h1⟩

/-- Comparison modelling `ORDER BY "order" ASC, createdAt DESC` on task rows. -/
def taskOrderLe (a b : TaskRow) : Prop :=
  a.order < b.order ∨ (a.order = b.order ∧ b.createdAt ≤ a.createdAt)

instance : DecidableRel taskOrderLe := fun a b =>
  inferInstanceAs (Decidable (a.order < b.order ∨ (a.order = b.order ∧ b.createdAt ≤ a.createdAt)))

instance : IsTotal TaskRow taskOrderLe := ⟨by
  intro a b
  rcases lt_trichotomy a.order b.order with h | h | h
  · exact Or.inl (Or.inl h)
  · rcases le_total b.createdAt a.createdAt with h2 | h2
    · exact Or.inl (Or.inr ⟨h, h2⟩)
    · exact Or.inr (Or.inr ⟨h.symm, h2⟩)
  · exact Or.inr (Or.inl h)⟩

instance : IsTrans TaskRow taskOrderLe := ⟨by
  intro a b c hab hbc
  rcases hab with h1 | ⟨h1, h1'⟩
  · rcases hbc with h2 | ⟨h2, _⟩
    · exact Or.inl (h1.trans h2)
    · exact Or.inl (h2 ▸ h1)
  · rcases hbc with h2 | ⟨h2, h2'⟩
    · exact Or.inl (h1 ▸ h2)
    · exact Or.inr ⟨h1.trans h2, h2'.trans h1'⟩⟩

/-! ### StorageService (document backend, storage.service.ts) -/

/-- StorageService.updateCategory merge:
`{ ...old, ...updates, updatedAt: new Date().toISOString() }`. -/
def applyCategoryUpdate (c : Category) (u : CategoryUpdate) (now : String) : Category :=
  { id := u.id?.getD c.id
    name := u.name?.getD c.name
    color := u.color?.getD c.color
    icon := u.icon?.getD c.icon
    createdAt := u.createdAt?.getD c.createdAt
    updatedAt := now }

/-- StorageService.updateProject merge. -/
def applyProjectUpdate (p : Project) (u : ProjectUpdate) (now : String) : Project :=
  { id := u.id?.getD p.id
    name := u.name?.getD p.name
    categoryId := u.categoryId?.getD p.categoryId
    createdAt := u.createdAt?.getD p.createdAt
    updatedAt := now }

/-- StorageService.updateTask merge. -/
def applyTaskUpdate (t : Task) (u : TaskUpdate) (now : String) : Task :=
  { id := u.id?.getD t.id
    projectId := u.projectId?.getD t.projectId
    title := u.title?.getD t.title
    description := u.description?.getD t.description
    dueDate := u.dueDate?.getD t.dueDate
    image := u.image?.getD t.image
    completed := u.completed?.getD t.completed
    order := u.order?.getD t.order
    createdAt := u.createdAt?.getD t.createdAt
    updatedAt := now }

def Storage.getCategories (s : DocState) : List Category :=
  s.categories

def Storage.addCategory (s : DocState) (c : Category) : DocState :=
  { s with categories := s.categories ++ [c] }

def Storage.updateCategory (s : DocState) (id : String) (u : CategoryUpdate) (now : String) : DocState :=
  { s with categories :=
      updateFirst (fun c => c.id == id) (fun c => applyCategoryUpdate c u now) s.categories }

def Storage.deleteCategory (s : DocState) (id : String) : DocState :=
  { s with categories := s.categories.filter (fun c => !(c.id == id)) }

def Storage.getProjects (s : DocState) : List Project :=
  s.projects

def Storage.addProject (s : DocState) (p : Project) : DocState :=
  { s with projects := s.projects ++ [p] }

def Storage.updateProject (s : DocState) (id : String) (u : ProjectUpdate) (now : String) : DocState :=
  { s with projects :=
      updateFirst (fun p => p.id == id) (fun p => applyProjectUpdate p u now) s.projects }

def Storage.deleteProject (s : DocState) (id : String) : DocState :=
  { s with projects := s.projects.filter (fun p => !(p.id == id)) }

def Storage.getTasks (s : DocState) : List Task :=
  s.tasks

def Storage.addTask (s : DocState) (t : Task) : DocState :=
  { s with tasks := s.tasks ++ [t] }

def Storage.updateTask (s : DocState) (id : String) (u : TaskUpdate) (now : String) : DocState :=
  { s with tasks :=
      updateFirst (fun t => t.id == id) (fun t => applyTaskUpdate t u now) s.tasks }

def Storage.deleteTask (s : DocState) (id : String) : DocState :=
  { s with tasks := s.tasks.filter (fun t => !(t.id == id)) }

/-! ### DatabaseService (relational backend, database.service.ts) -/

/-- Guard at the top of every DatabaseService method: throws when the database
is not initialized or the process is not on a native platform. -/
def ensureInitialized (db : SqlDb) : Except Unit Unit :=
  if !db.isInitialized then .error ()
  else if !db.isNativePlatform then .error ()
  else .ok ()

/-- SELECT * FROM categories ORDER BY name ASC. -/
def Database.getAllCategories (db : SqlDb) : Except Unit (List Category) :=
  match ensureInitialized db with
  | .error e => .error e
  | .ok _ => .ok (List.insertionSort (byKey Category.name) db.categories)

/-- SELECT * FROM categories WHERE id = ?, first row or null. -/
def Database.getCategoryById (db : SqlDb) (id : String) : Except Unit (Option Category) :=
  match ensureInitialized db with
  | .error e => .error e
  | .ok _ => .ok (db.categories.find? (fun c => c.id == id))

/-- INSERT INTO categories: a duplicate primary key makes SQLite throw. -/
def Database.createCategory (db : SqlDb) (c : Category) : Except Unit SqlDb :=
  match ensureInitialized db with
  | .error e => .error e
  | .ok _ =>
    if db.categories.any (fun c0 => c0.id == c.id) then .error ()
    else .ok { db with categories := db.categories ++ [c] }

/-- UPDATE categories SET name/color/icon (those supplied), updatedAt WHERE id. -/
def Database.updateCategory (db : SqlDb) (id : String) (u : CategoryUpdate) (now : String) :
    Except Unit SqlDb :=
  match ensureInitialized db with
  | .error e => .error e
  | .ok _ => .ok { db with categories := db.categories.map (fun c =>
      if c.id == id then
        { c with
          name := u.name?.getD c.name
          color := u.color?.getD c.color
          icon := u.icon?.getD c.icon
          updatedAt := now }
      else c) }

/-- DELETE FROM categories WHERE id = ?; the declared foreign keys cascade the
delete to the category's projects and to those projects' tasks. -/
def Database.deleteCategory (db : SqlDb) (id : String) : Except Unit SqlDb :=
  match ensureInitialized db with
  | .error e => .error e
  | .ok _ =>
    let deadProjects := db.projects.filter (fun p => p.categoryId == id)
    .ok { db with
      categories := db.categories.filter (fun c => !(c.id == id))
      projects := db.projects.filter (fun p => !(p.categoryId == id))
      tasks := db.tasks.filter (fun t => !(deadProjects.any (fun p => p.id == t.projectId))) }

/-- SELECT * FROM projects ORDER BY createdAt DESC. -/
def Database.getAllProjects (db : SqlDb) : Except Unit (List Project) :=
  match ensureInitialized db with
  | .error e => .error e
  | .ok _ => .ok (List.insertionSort (byKeyDesc Project.createdAt) db.projects)

/-- SELECT * FROM projects WHERE categoryId = ? ORDER BY createdAt DESC. -/
def Database.getProjectsByCategory (db : SqlDb) (categoryId : String) :
    Except Unit (List Project) :=
  match ensureInitialized db with
  | .error e => .error e
  | .ok _ => .ok (List.insertionSort (byKeyDesc Project.createdAt)
      (db.projects.filter (fun p => p.categoryId == categoryId)))

/-- SELECT * FROM projects WHERE id = ?, first row or null. -/
def Database.getProjectById (db : SqlDb) (id : String) : Except Unit (Option Project) :=
  match ensureInitialized db with
  | .error e => .error e
  | .ok _ => .ok (db.projects.find? (fun p => p.id == id))

/-- INSERT INTO projects; duplicate primary key throws. -/
def Database.createProject (db : SqlDb) (p : Project) : Except Unit SqlDb :=
  match ensureInitialized db with
  | .error e => .error e
  | .ok _ =>
    if db.projects.any (fun p0 => p0.id == p.id) then .error ()
    else .ok { db with projects := db.projects ++ [p] }

/-- UPDATE projects SET name/categoryId (those supplied), updatedAt WHERE id. -/
def Database.updateProject (db : SqlDb) (id : String) (u : ProjectUpdate) (now : String) :
    Except Unit SqlDb :=
  match ensureInitialized db with
  | .error e => .error e
  | .ok _ => .ok { db with projects := db.projects.map (fun p =>
      if p.id == id then
        { p with
          name := u.name?.getD p.name
          categoryId := u.categoryId?.getD p.categoryId
          updatedAt := now }
      else p) }

/-- DELETE FROM projects WHERE id = ?; cascades to the project's tasks. -/
def Database.deleteProject (db : SqlDb) (id : String) : Except Unit SqlDb :=
  match ensureInitialized db with
  | .error e => .error e
  | .ok _ => .ok { db with
      projects := db.projects.filter (fun p => !(p.id == id))
      tasks := db.tasks.filter (fun t => !(t.projectId == id)) }

/-- SELECT * FROM tasks ORDER BY "order" ASC, createdAt DESC, rows mapped back
to Tasks. -/
def Database.getAllTasks (db : SqlDb) : Except Unit (List Task) :=
  match ensureInitialized db with
  | .error e => .error e
  | .ok _ => .ok ((List.insertionSort taskOrderLe db.tasks).map rowToTask)

/-- SELECT * FROM tasks WHERE projectId = ? ORDER BY "order" ASC, createdAt DESC. -/
def Database.getTasksByProject (db : SqlDb) (projectId : String) : Except Unit (List Task) :=
  match ensureInitialized db with
  | .error e => .error e
  | .ok _ => .ok ((List.insertionSort taskOrderLe
      (db.tasks.filter (fun r => r.projectId == projectId))).map rowToTask)

/-- SELECT * FROM tasks WHERE dueDate < ? AND completed = 0 ORDER BY dueDate ASC,
with `?` bound to the call-time `new Date().toISOString()`. -/
def Database.getOverdueTasks (db : SqlDb) (now : String) : Except Unit (List Task) :=
  match ensureInitialized db with
  | .error e => .error e
  | .ok _ => .ok ((List.insertionSort (byKey TaskRow.dueDate)
      (db.tasks.filter (fun r => decide (r.dueDate < now) && r.completed == 0))).map rowToTask)

/-- SELECT * FROM tasks WHERE id = ?, first row (mapped) or null. -/
def Database.getTaskById (db : SqlDb) (id : String) : Except Unit (Option Task) :=
  match ensureInitialized db with
  | .error e => .error e
  | .ok _ => .ok ((db.tasks.find? (fun r => r.id == id)).map rowToTask)

/-- INSERT INTO tasks; duplicate primary key throws. -/
def Database.createTask (db : SqlDb) (t : Task) : Except Unit SqlDb :=
  match ensureInitialized db with
  | .error e => .error e
  | .ok _ =>
    if db.tasks.any (fun r => r.id == t.id) then .error ()
    else .ok { db with tasks := db.tasks ++ [taskToRow t] }

/-- UPDATE tasks SET (supplied fields), updatedAt = now WHERE id = ?.  The guards
in the source consider exactly projectId, title, description, dueDate, image,
completed and order; id and createdAt are never written. -/
def Database.updateTask (db : SqlDb) (id : String) (u : TaskUpdate) (now : String) :
    Except Unit SqlDb :=
  match ensureInitialized db with
  | .error e => .error e
  | .ok _ => .ok { db with tasks := db.tasks.map (fun r =>
      if r.id == id then
        { r with
          projectId := u.projectId?.getD r.projectId
          title := u.title?.getD r.title
          description := u.description?.getD r.description
          dueDate := u.dueDate?.getD r.dueDate
          image := u.image?.getD r.image
          completed := match u.completed? with
            | some b => if b then 1 else 0
            | none => r.completed
          order := u.order?.getD r.order
          updatedAt := now }
      else r) }

/-- DELETE FROM tasks WHERE id = ?. -/
def Database.deleteTask (db : SqlDb) (id : String) : Except Unit SqlDb :=
  match ensureInitialized db with
  | .error e => .error e
  | .ok _ => .ok { db with tasks := db.tasks.filter (fun r => !(r.id == id)) }

/-- Loop of UPDATE tasks SET "order" = ?, updatedAt = ? WHERE id = ?, one
statement per list element. -/
def Database.updateTasksOrder (db : SqlDb) (items : List (String × Int)) (now : String) :
    Except Unit SqlDb :=
  match ensureInitialized db with
  | .error e => .error e
  | .ok _ => .ok { db with tasks := items.foldl (fun rows item =>
      rows.map (fun r =>
        if r.id == item.1 then { r with order := item.2, updatedAt := now } else r)) db.tasks }

/-! ### DataSyncService (router, data-sync.service.ts)

Reads return the value; writes return the pair of backend states.  When
`useSQLite` is set the SQLite call is attempted first and any thrown error is
caught, after which the call re-executes against Ionic Storage. -/

def DataSync.getAllCategories (useSQLite : Bool) (db : SqlDb) (doc : DocState) :
    List Category :=
  if useSQLite then
    match Database.getAllCategories db with
    | .ok cs => cs
    | .error _ => Storage.getCategories doc
  else Storage.getCategories doc

def DataSync.getCategoryById (useSQLite : Bool) (db : SqlDb) (doc : DocState) (id : String) :
    Option Category :=
  if useSQLite then
    match Database.getCategoryById db id with
    | .ok c => c
    | .error _ => (Storage.getCategories doc).find? (fun c => c.id == id)
  else (Storage.getCategories doc).find? (fun c => c.id == id)

def DataSync.createCategory (useSQLite : Bool) (db : SqlDb) (doc : DocState) (c : Category) :
    SqlDb × DocState :=
  if useSQLite then
    match Database.createCategory db c with
    | .ok db' => (db', doc)
    | .error _ => (db, Storage.addCategory doc c)
  else (db, Storage.addCategory doc c)

def DataSync.updateCategory (useSQLite : Bool) (db : SqlDb) (doc : DocState)
    (id : String) (u : CategoryUpdate) (now : String) : SqlDb × DocState :=
  if useSQLite then
    match Database.updateCategory db id u now with
    | .ok db' => (db', doc)
    | .error _ => (db, Storage.updateCategory doc id u now)
  else (db, Storage.updateCategory doc id u now)

def DataSync.deleteCategory (useSQLite : Bool) (db : SqlDb) (doc : DocState) (id : String) :
    SqlDb × DocState :=
  if useSQLite then
    match Database.deleteCategory db id with
    | .ok db' => (db', doc)
    | .error _ => (db, Storage.deleteCategory doc id)
  else (db, Storage.deleteCategory doc id)

def DataSync.getAllProjects (useSQLite : Bool) (db : SqlDb) (doc : DocState) :
    List Project :=
  if useSQLite then
    match Database.getAllProjects db with
    | .ok ps => ps
    | .error _ => Storage.getProjects doc
  else Storage.getProjects doc

def DataSync.getProjectsByCategory (useSQLite : Bool) (db : SqlDb) (doc : DocState)
    (categoryId : String) : List Project :=
  if useSQLite then
    match Database.getProjectsByCategory db categoryId with
    | .ok ps => ps
    | .error _ => (Storage.getProjects doc).filter (fun p => p.categoryId == categoryId)
  else (Storage.getProjects doc).filter (fun p => p.categoryId == categoryId)

def DataSync.getProjectById (useSQLite : Bool) (db : SqlDb) (doc : DocState) (id : String) :
    Option Project :=
  if useSQLite then
    match Database.getProjectById db id with
    | .ok p => p
    | .error _ => (Storage.getProjects doc).find? (fun p => p.id == id)
  else (Storage.getProjects doc).find? (fun p => p.id == id)

def DataSync.createProject (useSQLite : Bool) (db : SqlDb) (doc : DocState) (p : Project) :
    SqlDb × DocState :=
  if useSQLite then
    match Database.createProject db p with
    | .ok db' => (db', doc)
    | .error _ => (db, Storage.addProject doc p)
  else (db, Storage.addProject doc p)

def DataSync.updateProject (useSQLite : Bool) (db : SqlDb) (doc : DocState)
    (id : String) (u : ProjectUpdate) (now : String) : SqlDb × DocState :=
  if useSQLite then
    match Database.updateProject db id u now with
    | .ok db' => (db', doc)
    | .error _ => (db, Storage.updateProject doc id u now)
  else (db, Storage.updateProject doc id u now)

def DataSync.deleteProject (useSQLite : Bool) (db : SqlDb) (doc : DocState) (id : String) :
    SqlDb × DocState :=
  if useSQLite then
    match Database.deleteProject db id with
    | .ok db' => (db', doc)
    | .error _ => (db, Storage.deleteProject doc id)
  else (db, Storage.deleteProject doc id)

def DataSync.getAllTasks (useSQLite : Bool) (db : SqlDb) (doc : DocState) :
    List Task :=
  if useSQLite then
    match Database.getAllTasks db with
    | .ok ts => ts
    | .error _ => Storage.getTasks doc
  else Storage.getTasks doc

def DataSync.getTasksByProject (useSQLite : Bool) (db : SqlDb) (doc : DocState)
    (projectId : String) : List Task :=
  if useSQLite then
    match Database.getTasksByProject db projectId with
    | .ok ts => ts
    | .error _ => (Storage.getTasks doc).filter (fun t => t.projectId == projectId)
  else (Storage.getTasks doc).filter (fun t => t.projectId == projectId)

def DataSync.getOverdueTasks (useSQLite : Bool) (db : SqlDb) (doc : DocState) (now : String) :
    List Task :=
  if useSQLite then
    match Database.getOverdueTasks db now with
    | .ok ts => ts
    | .error _ => (Storage.getTasks doc).filter
        (fun t => !t.completed && decide (t.dueDate < now))
  else (Storage.getTasks doc).filter (fun t => !t.completed && decide (t.dueDate < now))

def DataSync.getTaskById (useSQLite : Bool) (db : SqlDb) (doc : DocState) (id : String) :
    Option Task :=
  if useSQLite then
    match Database.getTaskById db id with
    | .ok t => t
    | .error _ => (Storage.getTasks doc).find? (fun t => t.id == id)
  else (Storage.getTasks doc).find? (fun t => t.id == id)

def DataSync.createTask (useSQLite : Bool) (db : SqlDb) (doc : DocState) (t : Task) :
    SqlDb × DocState :=
  if useSQLite then
    match Database.createTask db t with
    | .ok db' => (db', doc)
    | .error _ => (db, Storage.addTask doc t)
  else (db, Storage.addTask doc t)

def DataSync.updateTask (useSQLite : Bool) (db : SqlDb) (doc : DocState)
    (id : String) (u : TaskUpdate) (now : String) : SqlDb × DocState :=
  if useSQLite then
    match Database.updateTask db id u now with
    | .ok db' => (db', doc)
    | .error _ => (db, Storage.updateTask doc id u now)
  else (db, Storage.updateTask doc id u now)

def DataSync.deleteTask (useSQLite : Bool) (db : SqlDb) (doc : DocState) (id : String) :
    SqlDb × DocState :=
  if useSQLite then
    match Database.deleteTask db id with
    | .ok db' => (db', doc)
    | .error _ => (db, Storage.deleteTask doc id)
  else (db, Storage.deleteTask doc id)

/-- Update of only the order field, `{ order: task.order }`, as built inside the
storage loop of DataSyncService.updateTasksOrder. -/
def orderOnlyUpdate (o : Int) : TaskUpdate :=
  { order? := some o }

def DataSync.updateTasksOrder (useSQLite : Bool) (db : SqlDb) (doc : DocState)
    (items : List (String × Int)) (now : String) : SqlDb × DocState :=
  if useSQLite then
    match Database.updateTasksOrder db items now with
    | .ok db' => (db', doc)
    | .error _ =>
      (db, items.foldl (fun d item => Storage.updateTask d item.1 (orderOnlyUpdate item.2) now) doc)
  else
    (db, items.foldl (fun d item => Storage.updateTask d item.1 (orderOnlyUpdate item.2) now) doc)

/-! ### TaskService (feature layer, task.service.ts) -/

/-- Fields of CreateTaskDto (task.model.ts). -/
structure CreateTaskDto where
  projectId : String
  title : String
  description : String
  dueDate : String
  image : Option String := none
  order? : Option Int := none
  deriving DecidableEq

/-- Ternary `existingTasks.length > 0 ? Math.max(...orders) : -1` from
TaskService.createTask. -/
def maxOrderOf (existing : List Task) : Int :=
  if existing.length > 0 then ((existing.map Task.order).max?).getD (-1) else -1

/-- TaskService.createTask: read the project's tasks through the router,
compute the default order, build the record (id from generateId(), both
timestamps the call time, completed hard-coded to false) and hand it to the
router's create. -/
def TaskService.createTask (useSQLite : Bool) (db : SqlDb) (doc : DocState)
    (data : CreateTaskDto) (genId now : String) : Task × SqlDb × DocState :=
  let existingTasks := DataSync.getTasksByProject useSQLite db doc data.projectId
  let maxOrder := maxOrderOf existingTasks
  let task : Task :=
    { id := genId
      projectId := data.projectId
      title := data.title
      description := data.description
      dueDate := data.dueDate
      image := data.image
      completed := false
      order := match data.order? with | some o => o | none => maxOrder + 1
      createdAt := now
      updatedAt := now }
  let st := DataSync.createTask useSQLite db doc task
  (task, st.1, st.2)

/-! ### Spec-side definitions and frame predicates -/

/-- Ordering the spec's getByParent sentence demands for tasks: order
ascending, ties broken by dueDate ascending.  Written from the spec's words,
to be compared with the orderings the code actually produces. -/
def specClaimTaskLe (a b : Task) : Prop :=
  a.order < b.order ∨ (a.order = b.order ∧ a.dueDate ≤ b.dueDate)

instance : DecidableRel specClaimTaskLe := fun a b =>
  inferInstanceAs (Decidable (a.order < b.order ∨ (a.order = b.order ∧ a.dueDate ≤ b.dueDate)))

/-- Frame property of update(id, u) on a Task record: every field u does not
supply keeps its prior value, and updatedAt is at least the call time. -/
def TaskFrameOk (old new : Task) (u : TaskUpdate) (callTime : String) : Prop :=
  (u.id? = none → new.id = old.id) ∧
  (u.projectId? = none → new.projectId = old.projectId) ∧
  (u.title? = none → new.title = old.title) ∧
  (u.description? = none → new.description = old.description) ∧
  (u.dueDate? = none → new.dueDate = old.dueDate) ∧
  (u.image? = none → new.image = old.image) ∧
  (u.completed? = none → new.completed = old.completed) ∧
  (u.order? = none → new.order = old.order) ∧
  (u.createdAt? = none → new.createdAt = old.createdAt) ∧
  callTime ≤ new.updatedAt

/-- Frame property of UPDATE on a tasks-table row, same reading as
`TaskFrameOk` on the relational side. -/
def RowFrameOk (old new : TaskRow) (u : TaskUpdate) (callTime : String) : Prop :=
  new.id = old.id ∧
  (u.projectId? = none → new.projectId = old.projectId) ∧
  (u.title? = none → new.title = old.title) ∧
  (u.description? = none → new.description = old.description) ∧
  (u.dueDate? = none → new.dueDate = old.dueDate) ∧
  (u.image? = none → new.image = old.image) ∧
  (u.completed? = none → new.completed = old.completed) ∧
  (u.order? = none → new.order = old.order) ∧
  new.createdAt = old.createdAt ∧
  callTime ≤ new.updatedAt

/-! ### Concrete fixtures used by witnesses and counterexamples -/

/-- SQLite backend whose every call throws (never initialized, non-native). -/
def dbOff : SqlDb :=
  { isInitialized := false, isNativePlatform := false
    categories := [], projects := [], tasks := [] }

/-- Healthy, empty SQLite backend. -/
def dbOn : SqlDb :=
  { isInitialized := true, isNativePlatform := true
    categories := [], projects := [], tasks := [] }

/-- Empty document store. -/
def docEmpty : DocState :=
  { categories := [], projects := [], tasks := [] }

/-- Generic sample task with a non-empty image. -/
def tEx : Task :=
  { id := "t7", projectId := "p1", title := "sample", description := "d"
    dueDate := "3", image := some "img", completed := false, order := 5
    createdAt := "1", updatedAt := "1" }

/-- Task whose image is the empty string (falsy in JS). -/
def tImgEmpty : Task :=
  { id := "t8", projectId := "p1", title := "blank image", description := ""
    dueDate := "3", image := some "", completed := false, order := 0
    createdAt := "1", updatedAt := "1" }

/-- Task stored first, with the larger order and the earlier dueDate. -/
def taskA : Task :=
  { id := "tA", projectId := "p1", title := "A", description := ""
    dueDate := "1", image := none, completed := false, order := 1
    createdAt := "1", updatedAt := "1" }

/-- Task stored second, with the smaller order. -/
def taskB : Task :=
  { id := "tB", projectId := "p1", title := "B", description := ""
    dueDate := "2", image := none, completed := false, order := 0
    createdAt := "2", updatedAt := "2" }

/-- Document store holding taskA before taskB. -/
def docC2 : DocState :=
  { categories := [], projects := [], tasks := [taskA, taskB] }

/-- Task t1 of the reorder scenario (order 0 before the reorder). -/
def t1ex : Task :=
  { id := "t1", projectId := "p1", title := "one", description := ""
    dueDate := "1", image := none, completed := false, order := 0
    createdAt := "1", updatedAt := "1" }

/-- Task t2 of the reorder scenario (order 1 before the reorder). -/
def t2ex : Task :=
  { id := "t2", projectId := "p1", title := "two", description := ""
    dueDate := "2", image := none, completed := false, order := 1
    createdAt := "2", updatedAt := "2" }

/-- Document store of the reorder scenario: t1 inserted before t2. -/
def docC6 : DocState :=
  { categories := [], projects := [], tasks := [t1ex, t2ex] }

/-- Healthy SQLite backend holding the two scenario tasks as rows. -/
def dbC6 : SqlDb :=
  { isInitialized := true, isNativePlatform := true
    categories := [], projects := [], tasks := [taskToRow t1ex, taskToRow t2ex] }

/-- Reorder payload of the spec scenario: t1 to order 2, t2 to order 1. -/
def reorderItems : List (String × Int) :=
  [("t1", 2), ("t2", 1)]

/-- Update supplying only a new title. -/
def uTitle : TaskUpdate :=
  { title? := some "renamed" }

/-- Update that tries to set updatedAt explicitly. -/
def uStamp : TaskUpdate :=
  { updatedAt? := some "0" }

/-- Row of t1 after uTitle is applied by the relational backend at time 9. -/
def rowT1Renamed : TaskRow :=
  { taskToRow t1ex with title := "renamed", updatedAt := "9" }

/-- SQLite state expected after updating t1 with uTitle at time 9. -/
def dbC3' : SqlDb :=
  { dbC6 with tasks := [rowT1Renamed, taskToRow t2ex] }

/-- SQLite state expected after updating t1 with uStamp at time 9. -/
def dbC9' : SqlDb :=
  { dbC6 with tasks := [{ taskToRow t1ex with updatedAt := "9" }, taskToRow t2ex] }

/-- CreateTaskDto without an explicit order, for a project with no tasks. -/
def dtoEx : CreateTaskDto :=
  { projectId := "p9", title := "first", description := "", dueDate := "5" }

/-! ### Helper lemmas -/

theorem updateFirst_length (p : α → Bool) (f : α → α) (l : List α) :
    (updateFirst p f l).length = l.length := by
  induction l with
  | nil => rfl
  | cons x xs ih =>
    by_cases hx : p x
    · simp [updateFirst, hx]
    · simp [updateFirst, hx, ih]

theorem updateFirst_getElem? (p : α → Bool) (f : α → α) :
    ∀ (l : List α) (i : Nat),
      (updateFirst p f l)[i]? = l[i]? ∨
      ∃ x, l[i]? = some x ∧ p x = true ∧ (updateFirst p f l)[i]? = some (f x)
  | [], _ => Or.inl rfl
  | x :: xs, i => by
    cases hx : p x with
    | true =>
      cases i with
      | zero =>
        exact Or.inr ⟨x, by simp [updateFirst, hx]⟩
      | succ j => exact Or.inl (by simp [updateFirst, hx])
    | false =>
      cases i with
      | zero => exact Or.inl (by simp [updateFirst, hx])
      | succ j =>
        have ih := updateFirst_getElem? p f xs j
        simpa [updateFirst, hx] using ih

theorem updateFirst_getElem?_first (p : α → Bool) (f : α → α) :
    ∀ (l : List α) (i : Nat) (x : α),
      (∀ j, j < i → ∀ y, l[j]? = some y → p y = false) →
      l[i]? = some x → p x = true →
      (updateFirst p f l)[i]? = some (f x)
  | [], i, x, _, hx, _ => by simp at hx
  | y :: ys, i, x, hbefore, hx, hpx => by
    cases i with
    | zero =>
      simp only [List.getElem?_cons_zero, Option.some.injEq] at hx
      subst hx
      simp [updateFirst, hpx]
    | succ j =>
      have hy : p y = false :=
        hbefore 0 (Nat.succ_pos j) y (by simp)
      simp only [List.getElem?_cons_succ] at hx
      simp only [updateFirst, hy, Bool.false_eq_true, if_neg, not_false_iff,
        List.getElem?_cons_succ]
      exact updateFirst_getElem?_first p f ys j x
        (fun k hk z hz => hbefore (k + 1) (Nat.succ_lt_succ hk) z (by simpa using hz))
        hx hpx

theorem updateFirst_of_all_false (p : α → Bool) (f : α → α) :
    ∀ (l : List α), (∀ x ∈ l, p x = false) → updateFirst p f l = l
  | [], _ => rfl
  | x :: xs, h => by
    have hx : p x = false := h x (List.mem_cons_self x xs)
    simp only [updateFirst, hx, Bool.false_eq_true, if_neg, not_false_iff, List.cons.injEq,
      true_and]
    exact updateFirst_of_all_false p f xs (fun y hy => h y (List.mem_cons_of_mem x hy))

theorem find?_append_of_all_false (p : α → Bool) :
    ∀ (l1 l2 : List α), (∀ x ∈ l1, p x = false) → (l1 ++ l2).find? p = l2.find? p
  | [], _, _ => rfl
  | x :: xs, l2, h => by
    have hx : p x = false := h x (List.mem_cons_self x xs)
    simp only [List.cons_append, List.find?, hx]
    exact find?_append_of_all_false p xs l2 (fun y hy => h y (List.mem_cons_of_mem x hy))

theorem map_eq_self_of_all {α : Type} (f : α → α) (l : List α) (h : ∀ x ∈ l, f x = x) :
    l.map f = l := by
  have h1 : l.map f = l.map (fun x => x) := List.map_congr_left h
  simpa using h1

theorem applyTaskUpdate_frame (t : Task) (u : TaskUpdate) (now : String) :
    TaskFrameOk t (applyTaskUpdate t u now) u now := by
  refine ⟨?_, ?_, ?_, ?_, ?_, ?_, ?_, ?_, ?_, ?_⟩ <;>
    first
      | (intro h; simp [applyTaskUpdate, h])
      | simp [applyTaskUpdate]

theorem applyTaskUpdate_updatedAt (t : Task) (u : TaskUpdate) (now : String) :
    (applyTaskUpdate t u now).updatedAt = now :=
  rfl

theorem rowToTask_taskToRow (t : Task) (h : t.image ≠ some "") :
    rowToTask (taskToRow t) = t := by
  cases t with
  | mk id projectId title description dueDate image completed order createdAt updatedAt =>
    simp only [rowToTask, taskToRow, jsOrNull, Task.mk.injEq, true_and, and_true]
    constructor
    · match image, h with
      | none, _ => rfl
      | some s, h =>
        have hs : ¬ s = "" := by
          intro hs'
          exact h (by simp [hs'])
        simp [hs]
    · cases completed <;> rfl

theorem sqlUpdateTask_row_cases (db db' : SqlDb) (id : String) (u : TaskUpdate) (now : String)
    (hok : Database.updateTask db id u now = .ok db') (i : Nat) (oldR newR : TaskRow)
    (hold : db.tasks[i]? = some oldR) (hnew : db'.tasks[i]? = some newR) :
    ((oldR.id == id) = false ∧ newR = oldR) ∨
    ((oldR.id == id) = true ∧ RowFrameOk oldR newR u now ∧ newR.updatedAt = now) := by
  cases hens : ensureInitialized db with
  | error e =>
    simp only [Database.updateTask, hens] at hok
    exact absurd hok (by simp)
  | ok w =>
    simp only [Database.updateTask, hens] at hok
    injection hok with hX
    subst hX
    simp only [List.getElem?_map, hold, Option.map_some'] at hnew
    injection hnew with hg
    subst hg
    by_cases hid : (oldR.id == id) = true
    · right
      rw [if_pos hid]
      refine ⟨hid, ⟨rfl, ?_, ?_, ?_, ?_, ?_, ?_, ?_, rfl, ?_⟩, rfl⟩
      · intro h; simp [h]
      · intro h; simp [h]
      · intro h; simp [h]
      · intro h; simp [h]
      · intro h; simp [h]
      · intro h; simp [h]
      · intro h; simp [h]
      · exact le_refl now
    · left
      have hfalse : (oldR.id == id) = false := by simpa using hid
      rw [if_neg hid]
      exact ⟨hfalse, rfl⟩

/-! ### Claims -/

/-- C8: on the document backend, deleteProject(id) removes exactly the project
records with that id and leaves the stored task list (and everything else)
entirely unchanged — tasks of the deleted project stay behind as orphans. -/
theorem c8_deleteProject_no_cascade (db : SqlDb) (doc : DocState) (id : String) :
    (DataSync.deleteProject false db doc id).2.tasks = doc.tasks ∧
    (DataSync.deleteProject false db doc id).2.categories = doc.categories ∧
    (DataSync.deleteProject false db doc id).1 = db ∧
    (∀ p : Project, p ∈ (DataSync.deleteProject false db doc id).2.projects ↔
      p ∈ doc.projects ∧ p.id ≠ id) := by
  refine ⟨rfl, rfl, rfl, ?_⟩
  intro p
  simp [DataSync.deleteProject, Storage.deleteProject, List.mem_filter]

/-- C10: TaskService.createTask always creates the task with completed = false,
and when the dto carries no order and the project has no tasks the default
order computed from the max of an empty project (-1) plus one is 0. -/
theorem c10_default_order_and_completed (useSQLite : Bool) (db : SqlDb) (doc : DocState)
    (data : CreateTaskDto) (genId now : String) :
    (TaskService.createTask useSQLite db doc data genId now).1.completed = false ∧
    (DataSync.getTasksByProject useSQLite db doc data.projectId = [] →
      data.order? = none →
      (TaskService.createTask useSQLite db doc data genId now).1.order = 0) := by
  constructor
  · rfl
  · intro h1 h2
    simp [TaskService.createTask, h1, h2, maxOrderOf]

/-- Witness for C10 at a concrete empty store and a dto without order. -/
theorem c10_witness :
    DataSync.getTasksByProject false dbOff docEmpty dtoEx.projectId = [] ∧
    dtoEx.order? = none ∧
    (TaskService.createTask false dbOff docEmpty dtoEx "g1" "5").1.order = 0 ∧
    (TaskService.createTask false dbOff docEmpty dtoEx "g1" "5").1.completed = false :=
  ⟨rfl, rfl,
    (c10_default_order_and_completed false dbOff docEmpty dtoEx "g1" "5").2 rfl rfl,
    (c10_default_order_and_completed false dbOff docEmpty dtoEx "g1" "5").1⟩

/-- C7: when no stored record carries the id, getById is an absent result (no
throw) and update/delete complete while leaving both stores unchanged, on the
document path and on the working relational path alike. -/
theorem c7_missing_id_noop (db : SqlDb) (doc : DocState) (id : String) (u : TaskUpdate)
    (now : String)
    (hsql : ensureInitialized db = .ok ())
    (hdoc : ∀ t ∈ doc.tasks, t.id ≠ id)
    (hdb : ∀ r ∈ db.tasks, r.id ≠ id)
    (hcdoc : ∀ c ∈ doc.categories, c.id ≠ id)
    (hcdb : ∀ c ∈ db.categories, c.id ≠ id) :
    DataSync.getTaskById false db doc id = none ∧
    DataSync.getTaskById true db doc id = none ∧
    DataSync.getCategoryById false db doc id = none ∧
    DataSync.getCategoryById true db doc id = none ∧
    DataSync.updateTask false db doc id u now = (db, doc) ∧
    DataSync.updateTask true db doc id u now = (db, doc) ∧
    DataSync.deleteTask false db doc id = (db, doc) ∧
    DataSync.deleteTask true db doc id = (db, doc) := by
  obtain ⟨dbIni, dbNat, dbCats, dbProjs, dbRows⟩ := db
  obtain ⟨dCats, dProjs, dTasks⟩ := doc
  have hfindTask : dTasks.find? (fun t => t.id == id) = none :=
    List.find?_eq_none.mpr (fun t ht => by simp [hdoc t ht])
  have hfindRow : dbRows.find? (fun r => r.id == id) = none :=
    List.find?_eq_none.mpr (fun r hr => by simp [hdb r hr])
  have hfindCat : dCats.find? (fun c => c.id == id) = none :=
    List.find?_eq_none.mpr (fun c hc => by simp [hcdoc c hc])
  have hfindCatDb : dbCats.find? (fun c => c.id == id) = none :=
    List.find?_eq_none.mpr (fun c hc => by simp [hcdb c hc])
  have hupdFirst : ∀ (f : Task → Task), updateFirst (fun t => t.id == id) f dTasks = dTasks :=
    fun f => updateFirst_of_all_false _ f dTasks
      (fun t ht => by simp [hdoc t ht])
  refine ⟨?_, ?_, ?_, ?_, ?_, ?_, ?_, ?_⟩
  · simp [DataSync.getTaskById, Storage.getTasks, hfindTask]
  · simp [DataSync.getTaskById, Database.getTaskById, hsql, hfindRow]
  · simp [DataSync.getCategoryById, Storage.getCategories, hfindCat]
  · simp [DataSync.getCategoryById, Database.getCategoryById, hsql, hfindCatDb]
  · simp [DataSync.updateTask, Storage.updateTask, hupdFirst]
  · simp only [DataSync.updateTask, Database.updateTask, hsql]
    refine congrArg (fun ts => (SqlDb.mk dbIni dbNat dbCats dbProjs ts, DocState.mk dCats dProjs dTasks)) ?_
    exact map_eq_self_of_all _ _ (fun r hr => by simp [hdb r hr])
  · simp [DataSync.deleteTask, Storage.deleteTask,
      List.filter_eq_self.mpr (fun t ht => by simp [hdoc t ht] :
        ∀ t ∈ dTasks, (!(t.id == id)) = true)]
  · simp only [DataSync.deleteTask, Database.deleteTask, hsql]
    refine congrArg (fun ts => (SqlDb.mk dbIni dbNat dbCats dbProjs ts, DocState.mk dCats dProjs dTasks)) ?_
    exact List.filter_eq_self.mpr (fun r hr => by simp [hdb r hr])

/-- Witness for C7 on concrete stores that hold records, with an id absent
from all of them. -/
theorem c7_witness :
    ensureInitialized dbC6 = .ok () ∧
    (∀ t ∈ docC6.tasks, t.id ≠ "zzz") ∧
    DataSync.getTaskById false dbC6 docC6 "zzz" = none ∧
    DataSync.updateTask true dbC6 docC6 "zzz" uTitle "9" = (dbC6, docC6) := by
  have h := c7_missing_id_noop dbC6 docC6 "zzz" uTitle "9" rfl
    (by decide) (by decide) (by decide) (by decide)
  exact ⟨rfl, by decide, h.1, h.2.2.2.2.2.1⟩

/-- C1: when every relational call throws, each router operation (all reads and
writes, for all three entity kinds) returns the same value and leaves both
stores exactly as the same operation executed directly against the document
backend with no fallback (the useSQLite = false path), and a record created
through the fallback is retrievable afterwards. -/
theorem c1_fallback_refines_document (db : SqlDb) (doc : DocState)
    (hfail : ensureInitialized db = .error ()) :
    (DataSync.getAllCategories true db doc = DataSync.getAllCategories false db doc) ∧
    (∀ id, DataSync.getCategoryById true db doc id = DataSync.getCategoryById false db doc id) ∧
    (∀ c, DataSync.createCategory true db doc c = DataSync.createCategory false db doc c) ∧
    (∀ id u now, DataSync.updateCategory true db doc id u now =
      DataSync.updateCategory false db doc id u now) ∧
    (∀ id, DataSync.deleteCategory true db doc id = DataSync.deleteCategory false db doc id) ∧
    (DataSync.getAllProjects true db doc = DataSync.getAllProjects false db doc) ∧
    (∀ cid, DataSync.getProjectsByCategory true db doc cid =
      DataSync.getProjectsByCategory false db doc cid) ∧
    (∀ id, DataSync.getProjectById true db doc id = DataSync.getProjectById false db doc id) ∧
    (∀ p, DataSync.createProject true db doc p = DataSync.createProject false db doc p) ∧
    (∀ id u now, DataSync.updateProject true db doc id u now =
      DataSync.updateProject false db doc id u now) ∧
    (∀ id, DataSync.deleteProject true db doc id = DataSync.deleteProject false db doc id) ∧
    (DataSync.getAllTasks true db doc = DataSync.getAllTasks false db doc) ∧
    (∀ pid, DataSync.getTasksByProject true db doc pid =
      DataSync.getTasksByProject false db doc pid) ∧
    (∀ now, DataSync.getOverdueTasks true db doc now =
      DataSync.getOverdueTasks false db doc now) ∧
    (∀ id, DataSync.getTaskById true db doc id = DataSync.getTaskById false db doc id) ∧
    (∀ t, DataSync.createTask true db doc t = (db, Storage.addTask doc t)) ∧
    (∀ id u now, DataSync.updateTask true db doc id u now =
      DataSync.updateTask false db doc id u now) ∧
    (∀ id, DataSync.deleteTask true db doc id = DataSync.deleteTask false db doc id) ∧
    (∀ items now, DataSync.updateTasksOrder true db doc items now =
      DataSync.updateTasksOrder false db doc items now) ∧
    (∀ t, (∀ t0 ∈ doc.tasks, t0.id ≠ t.id) →
      DataSync.getTaskById true db (DataSync.createTask true db doc t).2 t.id = some t) := by
  refine ⟨?_, ?_, ?_, ?_, ?_, ?_, ?_, ?_, ?_, ?_, ?_, ?_, ?_, ?_, ?_, ?_, ?_, ?_, ?_, ?_⟩
  · simp [DataSync.getAllCategories, Database.getAllCategories, hfail]
  · intro id
    simp [DataSync.getCategoryById, Database.getCategoryById, hfail]
  · intro c
    simp [DataSync.createCategory, Database.createCategory, hfail]
  · intro id u now
    simp [DataSync.updateCategory, Database.updateCategory, hfail]
  · intro id
    simp [DataSync.deleteCategory, Database.deleteCategory, hfail]
  · simp [DataSync.getAllProjects, Database.getAllProjects, hfail]
  · intro cid
    simp [DataSync.getProjectsByCategory, Database.getProjectsByCategory, hfail]
  · intro id
    simp [DataSync.getProjectById, Database.getProjectById, hfail]
  · intro p
    simp [DataSync.createProject, Database.createProject, hfail]
  · intro id u now
    simp [DataSync.updateProject, Database.updateProject, hfail]
  · intro id
    simp [DataSync.deleteProject, Database.deleteProject, hfail]
  · simp [DataSync.getAllTasks, Database.getAllTasks, hfail]
  · intro pid
    simp [DataSync.getTasksByProject, Database.getTasksByProject, hfail]
  · intro now
    simp [DataSync.getOverdueTasks, Database.getOverdueTasks, hfail]
  · intro id
    simp [DataSync.getTaskById, Database.getTaskById, hfail]
  · intro t
    simp [DataSync.createTask, Database.createTask, hfail]
  · intro id u now
    simp [DataSync.updateTask, Database.updateTask, hfail]
  · intro id
    simp [DataSync.deleteTask, Database.deleteTask, hfail]
  · intro items now
    simp [DataSync.updateTasksOrder, Database.updateTasksOrder, hfail]
  · intro t ht
    have hstep : DataSync.createTask true db doc t = (db, Storage.addTask doc t) := by
      simp [DataSync.createTask, Database.createTask, hfail]
    rw [hstep]
    simp only [DataSync.getTaskById, Database.getTaskById, hfail, if_true,
      Storage.getTasks, Storage.addTask]
    rw [find?_append_of_all_false _ doc.tasks [t] (fun x hx => by simp [ht x hx])]
    simp [List.find?]

/-- Witness for C1 at the never-initialized backend: the fallback create lands
in the document store and the created task is retrievable. -/
theorem c1_witness :
    DataSync.createTask true dbOff docEmpty tEx = (dbOff, Storage.addTask docEmpty tEx) ∧
    DataSync.getTaskById true dbOff (DataSync.createTask true dbOff docEmpty tEx).2 tEx.id =
      some tEx := by
  obtain ⟨-, -, -, -, -, -, -, -, -, -, -, -, -, -, -, hcreate, -, -, -, hread⟩ :=
    c1_fallback_refines_document dbOff docEmpty rfl
  exact ⟨hcreate tEx, hread tEx (by decide)⟩

/-- C3: update(id, u) changes only the fields u supplies — every slot of the
store is either untouched or satisfies the frame property (unsupplied fields
keep their prior values) — the matched record's updatedAt becomes the call
time, and this holds on the document and the relational backend alike. -/
theorem c3_update_frame (doc : DocState) (db db' : SqlDb) (id : String) (u : TaskUpdate)
    (now : String) (hok : Database.updateTask db id u now = .ok db') :
    (∀ (i : Nat) (oldT newT : Task), doc.tasks[i]? = some oldT →
        (Storage.updateTask doc id u now).tasks[i]? = some newT →
        newT = oldT ∨ (TaskFrameOk oldT newT u now ∧ newT.updatedAt = now)) ∧
    (∀ (i : Nat) (oldT : Task), doc.tasks[i]? = some oldT →
        (∀ j, j < i → ∀ y : Task, doc.tasks[j]? = some y → (y.id == id) = false) →
        (oldT.id == id) = true →
        (Storage.updateTask doc id u now).tasks[i]? = some (applyTaskUpdate oldT u now)) ∧
    (∀ (i : Nat) (oldR newR : TaskRow), db.tasks[i]? = some oldR →
        db'.tasks[i]? = some newR →
        newR = oldR ∨ (RowFrameOk oldR newR u now ∧ newR.updatedAt = now)) ∧
    (∀ (i : Nat) (oldR newR : TaskRow), db.tasks[i]? = some oldR →
        db'.tasks[i]? = some newR → (oldR.id == id) = true →
        RowFrameOk oldR newR u now ∧ newR.updatedAt = now) := by
  refine ⟨?_, ?_, ?_, ?_⟩
  · intro i oldT newT hold hnew
    simp only [Storage.updateTask] at hnew
    rcases updateFirst_getElem? (fun t => t.id == id) (fun t => applyTaskUpdate t u now)
        doc.tasks i with h | ⟨x, hx, hpx, hfx⟩
    · rw [h, hold] at hnew
      injection hnew with hn
      exact Or.inl hn.symm
    · rw [hold] at hx
      injection hx with hx'
      subst hx'
      rw [hfx] at hnew
      injection hnew with hn
      subst hn
      exact Or.inr ⟨applyTaskUpdate_frame oldT u now, rfl⟩
  · intro i oldT hold hbefore hid
    simp only [Storage.updateTask]
    exact updateFirst_getElem?_first _ _ doc.tasks i oldT hbefore hold hid
  · intro i oldR newR hold hnew
    rcases sqlUpdateTask_row_cases db db' id u now hok i oldR newR hold hnew with
      ⟨_, h⟩ | ⟨_, hf, hu⟩
    · exact Or.inl h
    · exact Or.inr ⟨hf, hu⟩
  · intro i oldR newR hold hnew hid
    rcases sqlUpdateTask_row_cases db db' id u now hok i oldR newR hold hnew with
      ⟨hfalse, _⟩ | ⟨_, hf, hu⟩
    · rw [hid] at hfalse
      cases hfalse
    · exact ⟨hf, hu⟩

/-- Witness for C3: renaming t1 in the two-task stores updates slot 0 on both
backends. -/
theorem c3_witness :
    Database.updateTask dbC6 "t1" uTitle "9" = .ok dbC3' ∧
    (Storage.updateTask docC6 "t1" uTitle "9").tasks[0]? =
      some (applyTaskUpdate t1ex uTitle "9") := by
  have hok : Database.updateTask dbC6 "t1" uTitle "9" = .ok dbC3' := by rfl
  refine ⟨hok, ?_⟩
  exact (c3_update_frame docC6 dbC6 dbC3' "t1" uTitle "9" hok).2.1 0 t1ex rfl
    (fun j hj y _ => absurd hj (Nat.not_lt_zero j)) rfl

/-- C9: a caller-supplied updatedAt is ignored — when u contains updatedAt,
the record matched by update(id, u) still gets the backend's own call time as
updatedAt, on both backends. -/
theorem c9_updatedAt_overwritten (doc : DocState) (db db' : SqlDb) (id v : String)
    (u : TaskUpdate) (now : String)
    (hv : u.updatedAt? = some v)
    (hok : Database.updateTask db id u now = .ok db') :
    (∀ (i : Nat) (oldT : Task), doc.tasks[i]? = some oldT →
        (∀ j, j < i → ∀ y : Task, doc.tasks[j]? = some y → (y.id == id) = false) →
        (oldT.id == id) = true →
        ∃ newT : Task, (Storage.updateTask doc id u now).tasks[i]? = some newT ∧
          newT.updatedAt = now) ∧
    (∀ (i : Nat) (oldR newR : TaskRow), db.tasks[i]? = some oldR →
        db'.tasks[i]? = some newR → (oldR.id == id) = true →
        newR.updatedAt = now) := by
  constructor
  · intro i oldT hold hbefore hid
    refine ⟨applyTaskUpdate oldT u now, ?_, rfl⟩
    simp only [Storage.updateTask]
    exact updateFirst_getElem?_first _ _ doc.tasks i oldT hbefore hold hid
  · intro i oldR newR hold hnew hid
    rcases sqlUpdateTask_row_cases db db' id u now hok i oldR newR hold hnew with
      ⟨hfalse, _⟩ | ⟨_, _, hu⟩
    · rw [hid] at hfalse
      cases hfalse
    · exact hu

/-- Witness for C9: an update that supplies updatedAt = 0 still stamps the
call time 9 on the matched record, on both backends. -/
theorem c9_witness :
    uStamp.updatedAt? = some "0" ∧
    Database.updateTask dbC6 "t1" uStamp "9" = .ok dbC9' ∧
    (∃ newT : Task, (Storage.updateTask docC6 "t1" uStamp "9").tasks[0]? = some newT ∧
      newT.updatedAt = "9") ∧
    (∀ newR : TaskRow, dbC9'.tasks[0]? = some newR → newR.updatedAt = "9") := by
  have hok : Database.updateTask dbC6 "t1" uStamp "9" = .ok dbC9' := by rfl
  have h := c9_updatedAt_overwritten docC6 dbC6 dbC9' "t1" "0" uStamp "9" rfl hok
  refine ⟨rfl, hok, ?_, ?_⟩
  · exact h.1 0 t1ex rfl (fun j hj y _ => absurd hj (Nat.not_lt_zero j)) rfl
  · intro newR hnew
    exact h.2 0 (taskToRow t1ex) newR rfl hnew rfl

/-- C2 (amended): getTasksByProject returns exactly the tasks whose projectId
equals the argument on both backends; the document path keeps stored order
without re-sorting, while the relational path returns them sorted by order
ascending with ties broken by createdAt descending. -/
theorem c2_getByParent (db : SqlDb) (doc : DocState) (pid : String) (l : List Task)
    (hok : Database.getTasksByProject db pid = .ok l) :
    (∀ x : Task, x ∈ DataSync.getTasksByProject false db doc pid ↔
        x ∈ doc.tasks ∧ x.projectId = pid) ∧
    (DataSync.getTasksByProject false db doc pid =
        doc.tasks.filter (fun t => t.projectId == pid)) ∧
    (DataSync.getTasksByProject true db doc pid = l) ∧
    (∃ rows : List TaskRow,
        List.Perm rows (db.tasks.filter (fun r => r.projectId == pid)) ∧
        List.Sorted taskOrderLe rows ∧ l = rows.map rowToTask) := by
  refine ⟨?_, rfl, ?_, ?_⟩
  · intro x
    show x ∈ doc.tasks.filter (fun t => t.projectId == pid) ↔ _
    simp [List.mem_filter]
  · simp [DataSync.getTasksByProject, hok]
  · cases hens : ensureInitialized db with
    | error e =>
      simp only [Database.getTasksByProject, hens] at hok
      exact absurd hok (by simp)
    | ok w =>
      simp only [Database.getTasksByProject, hens] at hok
      injection hok with hX
      exact ⟨List.insertionSort taskOrderLe (db.tasks.filter (fun r => r.projectId == pid)),
        List.perm_insertionSort _ _, List.sorted_insertionSort _ _, hX.symm⟩

/-- Counterexample to C2 as stated: on the document backend the matching tasks
come back in stored order, which violates the claimed order-ascending,
dueDate-tie-broken ordering. -/
theorem c2_counterexample :
    DataSync.getTasksByProject false dbOff docC2 "p1" = [taskA, taskB] ∧
    ¬ List.Sorted specClaimTaskLe (DataSync.getTasksByProject false dbOff docC2 "p1") := by
  constructor
  · rfl
  · decide

/-- Witness for C2 on the two-task stores. -/
theorem c2_witness :
    Database.getTasksByProject dbC6 "p1" = .ok [t1ex, t2ex] ∧
    DataSync.getTasksByProject false dbC6 docC6 "p1" =
      docC6.tasks.filter (fun t => t.projectId == "p1") := by
  have hok : Database.getTasksByProject dbC6 "p1" = .ok [t1ex, t2ex] := by rfl
  exact ⟨hok, (c2_getByParent dbC6 docC6 "p1" [t1ex, t2ex] hok).2.1⟩

/-- C4: getOverdue returns exactly the stored tasks with completed = false and
dueDate before the call time, and never a completed task, on the document and
the relational backend alike. -/
theorem c4_overdue_exact (db : SqlDb) (doc : DocState) (now : String) (l : List Task)
    (hinv : ∀ r ∈ db.tasks, r.completed = 0 ∨ r.completed = 1)
    (hok : Database.getOverdueTasks db now = .ok l) :
    (∀ x : Task, x ∈ DataSync.getOverdueTasks false db doc now ↔
        x ∈ doc.tasks ∧ x.completed = false ∧ x.dueDate < now) ∧
    (DataSync.getOverdueTasks true db doc now = l) ∧
    (∀ x : Task, x ∈ l ↔
        (∃ r ∈ db.tasks, rowToTask r = x) ∧ x.completed = false ∧ x.dueDate < now) ∧
    (∀ x ∈ l, x.completed = false) := by
  have hrouter : DataSync.getOverdueTasks true db doc now = l := by
    simp [DataSync.getOverdueTasks, hok]
  have hdocMem : ∀ x : Task, x ∈ DataSync.getOverdueTasks false db doc now ↔
      x ∈ doc.tasks ∧ x.completed = false ∧ x.dueDate < now := by
    intro x
    show x ∈ doc.tasks.filter (fun t => !t.completed && decide (t.dueDate < now)) ↔ _
    simp [List.mem_filter, Bool.and_eq_true, Bool.not_eq_true', decide_eq_true_eq, and_assoc]
  cases hens : ensureInitialized db with
  | error e =>
    simp only [Database.getOverdueTasks, hens] at hok
    exact absurd hok (by simp)
  | ok w =>
    simp only [Database.getOverdueTasks, hens] at hok
    injection hok with hX
    subst hX
    have hmem : ∀ x : Task,
        x ∈ (List.insertionSort (byKey TaskRow.dueDate)
            (db.tasks.filter (fun r => decide (r.dueDate < now) && (r.completed == 0)))).map
            rowToTask ↔
        (∃ r ∈ db.tasks, rowToTask r = x) ∧ x.completed = false ∧ x.dueDate < now := by
      intro x
      constructor
      · intro hx
        rcases List.mem_map.mp hx with ⟨r, hr, hrx⟩
        have hr2 : r ∈ db.tasks.filter
            (fun r => decide (r.dueDate < now) && (r.completed == 0)) :=
          (List.mem_insertionSort _).mp hr
        rcases List.mem_filter.mp hr2 with ⟨hrdb, hq⟩
        simp only [Bool.and_eq_true, decide_eq_true_eq, beq_iff_eq] at hq
        obtain ⟨hdue, hcomp⟩ := hq
        subst hrx
        refine ⟨⟨r, hrdb, rfl⟩, ?_, hdue⟩
        show (r.completed == 1) = false
        simp [hcomp]
      · rintro ⟨⟨r, hrdb, rfl⟩, hcomp, hdue⟩
        refine List.mem_map.mpr ⟨r, ?_, rfl⟩
        refine (List.mem_insertionSort _).mpr ?_
        refine List.mem_filter.mpr ⟨hrdb, ?_⟩
        have h1 : r.completed ≠ 1 := by
          intro hc
          rw [show (rowToTask r).completed = (r.completed == 1) from rfl] at hcomp
          simp [hc] at hcomp
        have h0 : r.completed = 0 := (hinv r hrdb).resolve_right h1
        simp only [Bool.and_eq_true, decide_eq_true_eq, beq_iff_eq]
        exact ⟨hdue, h0⟩
    exact ⟨hdocMem, hrouter, hmem, fun x hx => ((hmem x).mp hx).2.1⟩

/-- Witness for C4: the empty relational table satisfies the 0/1 invariant and
yields the empty overdue list; the document conjunct is instantiated on the
two-task store. -/
theorem c4_witness :
    (∀ r ∈ dbOn.tasks, r.completed = 0 ∨ r.completed = 1) ∧
    Database.getOverdueTasks dbOn "5" = .ok [] ∧
    (∀ x : Task, x ∈ DataSync.getOverdueTasks false dbOn docC6 "5" ↔
        x ∈ docC6.tasks ∧ x.completed = false ∧ x.dueDate < "5") := by
  refine ⟨by simp [dbOn], rfl, ?_⟩
  exact (c4_overdue_exact dbOn docC6 "5" [] (by simp [dbOn]) rfl).1

/-- C5 (amended): create(t) then getById(t.id) on a store with no record of
that id returns t itself: on the document backend for every task, with no
condition on the image, and on the relational backend for every task whose
image is not the empty string (an empty-string image is normalized to NULL by
the INSERT marshalling). -/
theorem c5_create_then_get (db : SqlDb) (doc : DocState) (t : Task)
    (hsql : ensureInitialized db = .ok ())
    (hdocFresh : ∀ t0 ∈ doc.tasks, t0.id ≠ t.id)
    (hdbFresh : ∀ r ∈ db.tasks, r.id ≠ t.id) :
    DataSync.getTaskById false db (DataSync.createTask false db doc t).2 t.id = some t ∧
    (t.image ≠ some "" →
      DataSync.getTaskById true (DataSync.createTask true db doc t).1
        (DataSync.createTask true db doc t).2 t.id = some t) := by
  constructor
  · show (doc.tasks ++ [t]).find? (fun t0 => t0.id == t.id) = some t
    rw [find?_append_of_all_false _ doc.tasks [t] (fun x hx => by simp [hdocFresh x hx])]
    simp [List.find?]
  · intro himg
    have hany : (db.tasks.any (fun r => r.id == t.id)) = false := by
      rw [List.any_eq_false]
      intro r hr
      simp [hdbFresh r hr]
    have hcreate : DataSync.createTask true db doc t =
        ({ db with tasks := db.tasks ++ [taskToRow t] }, doc) := by
      simp [DataSync.createTask, Database.createTask, hsql, hany]
    rw [hcreate]
    have hens2 : ensureInitialized { db with tasks := db.tasks ++ [taskToRow t] } = .ok () :=
      hsql
    simp only [DataSync.getTaskById, Database.getTaskById, hens2, if_true]
    rw [find?_append_of_all_false _ db.tasks [taskToRow t]
      (fun r hr => by simp [hdbFresh r hr])]
    have hbeq : ((taskToRow t).id == t.id) = true := by
      show (t.id == t.id) = true
      simp
    simp [List.find?, hbeq, rowToTask_taskToRow t himg]

/-- Counterexample to C5 as stated: a task whose image is the empty string is
read back from the relational backend with image NULL, so a field other than
updatedAt has changed. -/
theorem c5_counterexample :
    DataSync.getTaskById true (DataSync.createTask true dbOn docEmpty tImgEmpty).1
      (DataSync.createTask true dbOn docEmpty tImgEmpty).2 tImgEmpty.id =
      some { tImgEmpty with image := none } ∧
    ({ tImgEmpty with image := none } : Task) ≠ tImgEmpty := by
  constructor
  · rfl
  · decide

/-- Witness for C5: the document round trip at the boundary empty-image task,
and the relational round trip at a task with a non-empty image. -/
theorem c5_witness :
    ensureInitialized dbOn = .ok () ∧
    DataSync.getTaskById false dbOn (DataSync.createTask false dbOn docEmpty tImgEmpty).2
      tImgEmpty.id = some tImgEmpty ∧
    (tEx.image ≠ some "" →
      DataSync.getTaskById true (DataSync.createTask true dbOn docEmpty tEx).1
        (DataSync.createTask true dbOn docEmpty tEx).2 tEx.id = some tEx) := by
  have h1 := c5_create_then_get dbOn docEmpty tImgEmpty rfl (by simp [docEmpty])
    (by simp [dbOn])
  have h2 := c5_create_then_get dbOn docEmpty tEx rfl (by simp [docEmpty])
    (by simp [dbOn])
  exact ⟨rfl, h1.1, h2.2⟩

/-- C6 (amended): after reorderTasks([t1 to 2, t2 to 1]) the relational
backend's getByParent returns t2 before t1, while the document backend applies
the new order fields but still returns the tasks in stored insertion order,
t1 before t2. -/
theorem c6_reorder_scenario :
    ((DataSync.getTasksByProject true
        (DataSync.updateTasksOrder true dbC6 docC6 reorderItems "9").1
        (DataSync.updateTasksOrder true dbC6 docC6 reorderItems "9").2 "p1").map Task.id
      = ["t2", "t1"]) ∧
    ((DataSync.getTasksByProject false dbOff
        (DataSync.updateTasksOrder false dbOff docC6 reorderItems "9").2 "p1").map Task.id
      = ["t1", "t2"]) ∧
    ((DataSync.getTasksByProject false dbOff
        (DataSync.updateTasksOrder false dbOff docC6 reorderItems "9").2 "p1").map Task.order
      = [2, 1]) := by
  refine ⟨?_, ?_, ?_⟩ <;> rfl

/-- Counterexample to C6 as stated: on the document backend the reordered
getByParent result still lists t1 first, not t2. -/
theorem c6_counterexample :
    ¬ ((DataSync.getTasksByProject false dbOff
        (DataSync.updateTasksOrder false dbOff docC6 reorderItems "9").2 "p1").map Task.id
      = ["t2", "t1"]) := by
  decide

end Projefa
